import Mathlib

/-!
Verification of the web-renderer model-loading and scene-normalization
pipeline of renderer.js against its natural-language specification.

The JavaScript source is shallowly embedded: three.js vectors become
rational triples, scene objects become trees of transform nodes carrying
geometry vertices, and the stateful viewer operations become pure
state-passing functions returning the new state together with the list of
user-visible effects (console logs and alert dialogs).  Angles that the
source expresses as multiples of Math.PI are recorded by their rational
coefficient of pi.  Binary floating point is modelled by exact rational
arithmetic, so tolerance claims are witnessed exactly.
-/

/-- A 3-component vector with exact rational coordinates, standing in for a
three.js Vector3. -/
structure Vec3 where
  x : ℚ
  y : ℚ
  z : ℚ
deriving DecidableEq, Repr

/-- Componentwise vector addition (Vector3.add). -/
def vadd (a b : Vec3) : Vec3 := ⟨a.x + b.x, a.y + b.y, a.z + b.z⟩

/-- Componentwise vector subtraction (Vector3.sub). -/
def vsub (a b : Vec3) : Vec3 := ⟨a.x - b.x, a.y - b.y, a.z - b.z⟩

/-- Componentwise vector multiplication (Vector3.multiply), used for
applying a per-axis scale to a point. -/
def vmul (a b : Vec3) : Vec3 := ⟨a.x * b.x, a.y * b.y, a.z * b.z⟩

/-- Scalar multiple of a vector (Vector3.multiplyScalar). -/
def smulQ (k : ℚ) (a : Vec3) : Vec3 := ⟨k * a.x, k * a.y, k * a.z⟩

/-- Math.min on two rationals, written with an explicit comparison so that
concrete instances evaluate inside the kernel. -/
def qmin (a b : ℚ) : ℚ := if a ≤ b then a else b

/-- Math.max on two rationals, written with an explicit comparison so that
concrete instances evaluate inside the kernel. -/
def qmax (a b : ℚ) : ℚ := if a ≤ b then b else a

/-- Componentwise minimum (Vector3.min), as used by Box3.expandByPoint. -/
def vmin (a b : Vec3) : Vec3 := ⟨qmin a.x b.x, qmin a.y b.y, qmin a.z b.z⟩

/-- Componentwise maximum (Vector3.max), as used by Box3.expandByPoint. -/
def vmax (a b : Vec3) : Vec3 := ⟨qmax a.x b.x, qmax a.y b.y, qmax a.z b.z⟩

theorem qmin_eq_min (a b : ℚ) : qmin a b = min a b := by
  simp [qmin, min_def]

theorem qmax_eq_max (a b : ℚ) : qmax a b = max a b := by
  simp [qmax, max_def]

/-- The zero vector. -/
def v0 : Vec3 := ⟨0, 0, 0⟩

/-- The all-ones vector; the identity value of an Object3D scale. -/
def v1 : Vec3 := ⟨1, 1, 1⟩

/-- A scene-graph node as consumed by fitObjectToScene: its translation and
per-axis scale, the vertices of its own geometry in local space, and its
child nodes.  The claims about fitObjectToScene concern translation and
scale hierarchies; node rotations play no role in those claims and are not
carried here. -/
inductive Object3D where
  | mk (position scale : Vec3) (geometryPoints : List Vec3)
      (children : List Object3D)

/-- The translation component of the node transform. -/
def Object3D.position : Object3D → Vec3
  | .mk p _ _ _ => p

/-- The scale component of the node transform. -/
def Object3D.scale : Object3D → Vec3
  | .mk _ s _ _ => s

/-- The vertices of the geometry owned by the node itself, in local space. -/
def Object3D.geometryPoints : Object3D → List Vec3
  | .mk _ _ g _ => g

/-- The child nodes. -/
def Object3D.children : Object3D → List Object3D
  | .mk _ _ _ c => c

/-- Replace the scale of the node (object.scale assignment). -/
def Object3D.setScale : Object3D → Vec3 → Object3D
  | .mk p _ g c, s => .mk p s g c

/-- Replace the position of the node (object.position assignment). -/
def Object3D.setPosition : Object3D → Vec3 → Object3D
  | .mk _ s g c, p => .mk p s g c

mutual
/-- All geometry vertices in the subtree of a node, expressed in the frame
of the node itself: descendants already carry their own transforms. -/
def innerPts : Object3D → List Vec3
  | .mk _ _ pts cs => pts ++ innerPtsList cs

/-- Subtree vertices of a list of sibling nodes, each transformed into the
common parent frame. -/
def innerPtsList : List Object3D → List Vec3
  | [] => []
  | c :: cs =>
      (innerPts c).map (fun p => vadd c.position (vmul c.scale p))
        ++ innerPtsList cs
end

/-- World-space vertices of an object, matching what
Box3.setFromObject(object) ranges over after object.updateMatrixWorld(true):
every geometry vertex transformed by the accumulated scale-then-translate
of its ancestor chain. -/
def nodePoints (o : Object3D) : List Vec3 :=
  (innerPts o).map (fun p => vadd o.position (vmul o.scale p))

/-- Box3.min of the world box: none exactly when the box is empty
(Box3.isEmpty). -/
def lowerCorner : List Vec3 → Option Vec3
  | [] => none
  | p :: ps => some (ps.foldl vmin p)

/-- Box3.max of the world box: none exactly when the box is empty. -/
def upperCorner : List Vec3 → Option Vec3
  | [] => none
  | p :: ps => some (ps.foldl vmax p)

/-- Box3.getCenter: midpoint of the two corners of a nonempty box. -/
def boxCenter (ps : List Vec3) : Option Vec3 :=
  match lowerCorner ps, upperCorner ps with
  | some mn, some mx => some (smulQ (1/2) (vadd mn mx))
  | _, _ => none

/-- Math.max(size.x, size.y, size.z) of the Box3.getSize of the world box
(0 for an empty box; fitObjectToScene never reads that value because of its
emptiness guard). -/
def maxDimOf (ps : List Vec3) : ℚ :=
  match lowerCorner ps, upperCorner ps with
  | some mn, some mx =>
      qmax (vsub mx mn).x (qmax (vsub mx mn).y (vsub mx mn).z)
  | _, _ => 0

/-- The scaling step of fitObjectToScene: when maxDim is positive, multiply
the node scale uniformly by targetSize / maxDim with targetSize = 3
(object.scale.multiplyScalar(scale)); otherwise leave the node alone. -/
def fitScaled (o : Object3D) (maxDim : ℚ) : Object3D :=
  if 0 < maxDim then o.setScale (smulQ (3 / maxDim) o.scale) else o

/-- The recentering step of fitObjectToScene: recompute the world box of
the (already rescaled) node and subtract its center from the node position
(object.position.sub(scaledCenter)). -/
def recenter (o : Object3D) : Object3D :=
  match boxCenter (nodePoints o) with
  | some c => o.setPosition (vsub o.position c)
  | none => o

/-- fitObjectToScene, renderer.js lines 490-520: update world matrices,
compute the world bounding box, return unchanged if the box is empty,
otherwise scale uniformly so the maximum extent maps to 3 units (guarded by
maxDim > 0), recompute the box and translate the node so the new box center
is the world origin.  The trailing frameCameraOnObject call only moves the
camera and lights and is outside the claims about this function. -/
def fitObjectToScene (o : Object3D) : Object3D :=
  if (nodePoints o).isEmpty then o
  else recenter (fitScaled o (maxDimOf (nodePoints o)))

theorem innerPts_setScale (o : Object3D) (s : Vec3) :
    innerPts (o.setScale s) = innerPts o := by
  cases o; rfl

theorem innerPts_setPosition (o : Object3D) (p : Vec3) :
    innerPts (o.setPosition p) = innerPts o := by
  cases o; rfl

theorem position_setScale (o : Object3D) (s : Vec3) :
    (o.setScale s).position = o.position := by
  cases o; rfl

theorem scale_setScale (o : Object3D) (s : Vec3) :
    (o.setScale s).scale = s := by
  cases o; rfl

theorem scale_setPosition (o : Object3D) (p : Vec3) :
    (o.setPosition p).scale = o.scale := by
  cases o; rfl

theorem position_setPosition (o : Object3D) (p : Vec3) :
    (o.setPosition p).position = p := by
  cases o; rfl

theorem setScale_self (o : Object3D) : o.setScale o.scale = o := by
  cases o; rfl

theorem setPosition_self (o : Object3D) : o.setPosition o.position = o := by
  cases o; rfl

theorem nodePoints_def (o : Object3D) :
    nodePoints o
      = (innerPts o).map (fun p => vadd o.position (vmul o.scale p)) := rfl

theorem nodePoints_setPosition (o : Object3D) (q : Vec3) :
    nodePoints (o.setPosition q)
      = (innerPts o).map (fun p => vadd q (vmul o.scale p)) := by
  cases o; rfl

theorem nodePoints_eq_nil_iff (o : Object3D) :
    nodePoints o = [] ↔ innerPts o = [] := by
  simp [nodePoints]

theorem smulQ_one (a : Vec3) : smulQ 1 a = a := by
  simp [smulQ]

theorem vsub_v0 (a : Vec3) : vsub a v0 = a := by
  simp [vsub, v0]

theorem vmin_sub (a b c : Vec3) :
    vmin (vsub a c) (vsub b c) = vsub (vmin a b) c := by
  simp [vmin, vsub, qmin_eq_min, min_sub_sub_right]

theorem vmax_sub (a b c : Vec3) :
    vmax (vsub a c) (vsub b c) = vsub (vmax a b) c := by
  simp [vmax, vsub, qmax_eq_max, max_sub_sub_right]

theorem foldl_vmin_map_sub (l : List Vec3) (c : Vec3) (a : Vec3) :
    (l.map (fun v => vsub v c)).foldl vmin (vsub a c)
      = vsub (l.foldl vmin a) c := by
  induction l generalizing a with
  | nil => rfl
  | cons b t ih => simpa [vmin_sub] using ih (vmin a b)

theorem foldl_vmax_map_sub (l : List Vec3) (c : Vec3) (a : Vec3) :
    (l.map (fun v => vsub v c)).foldl vmax (vsub a c)
      = vsub (l.foldl vmax a) c := by
  induction l generalizing a with
  | nil => rfl
  | cons b t ih => simpa [vmax_sub] using ih (vmax a b)

theorem lowerCorner_map_sub (ps : List Vec3) (c : Vec3) :
    lowerCorner (ps.map (fun v => vsub v c))
      = (lowerCorner ps).map (fun v => vsub v c) := by
  cases ps with
  | nil => rfl
  | cons a t => simp [lowerCorner, foldl_vmin_map_sub]

theorem upperCorner_map_sub (ps : List Vec3) (c : Vec3) :
    upperCorner (ps.map (fun v => vsub v c))
      = (upperCorner ps).map (fun v => vsub v c) := by
  cases ps with
  | nil => rfl
  | cons a t => simp [upperCorner, foldl_vmax_map_sub]

theorem boxCenter_map_sub (ps : List Vec3) (c m : Vec3)
    (h : boxCenter ps = some m) :
    boxCenter (ps.map (fun v => vsub v c)) = some (vsub m c) := by
  cases ps with
  | nil => simp [boxCenter, lowerCorner, upperCorner] at h
  | cons a t =>
    have hm : smulQ (1/2) (vadd (t.foldl vmin a) (t.foldl vmax a)) = m := by
      simpa [boxCenter, lowerCorner, upperCorner] using h
    subst hm
    simp only [List.map_cons, boxCenter, lowerCorner, upperCorner,
      foldl_vmin_map_sub, foldl_vmax_map_sub]
    simp only [Option.some.injEq]
    simp only [smulQ, vadd, vsub, Vec3.mk.injEq]
    refine ⟨by ring, by ring, by ring⟩

theorem recenter_scale (o : Object3D) :
    (recenter o).scale = o.scale := by
  unfold recenter
  cases boxCenter (nodePoints o) with
  | none => rfl
  | some c => exact scale_setPosition o _

theorem boxCenter_isSome_of_ne_nil (ps : List Vec3) (h : ps ≠ []) :
    ∃ m, boxCenter ps = some m := by
  cases ps with
  | nil => exact absurd rfl h
  | cons a t => exact ⟨_, rfl⟩

theorem boxCenter_recenter (o : Object3D) (h : nodePoints o ≠ []) :
    boxCenter (nodePoints (recenter o)) = some v0 := by
  obtain ⟨m, hm⟩ := boxCenter_isSome_of_ne_nil _ h
  unfold recenter
  rw [hm]
  have hshift : nodePoints (o.setPosition (vsub o.position m))
      = (nodePoints o).map (fun v => vsub v m) := by
    rw [nodePoints_setPosition, nodePoints_def, List.map_map]
    refine List.map_congr_left ?_
    intro p _
    simp only [Function.comp, vadd, vsub, Vec3.mk.injEq]
    refine ⟨by ring, by ring, by ring⟩
  rw [hshift, boxCenter_map_sub _ _ _ hm]
  simp [vsub, v0]

theorem innerPts_fitScaled (o : Object3D) (d : ℚ) :
    innerPts (fitScaled o d) = innerPts o := by
  unfold fitScaled
  by_cases h : 0 < d
  · rw [if_pos h, innerPts_setScale]
  · rw [if_neg h]

theorem nodePoints_fitScaled_ne_nil (o : Object3D) (d : ℚ)
    (h : nodePoints o ≠ []) : nodePoints (fitScaled o d) ≠ [] := by
  intro hnil
  apply h
  rw [nodePoints_eq_nil_iff] at hnil ⊢
  rwa [innerPts_fitScaled] at hnil

/-- C1: for a node whose world bounding box is nonempty and whose maximum
axis extent maxDim is positive, fitObjectToScene multiplies the node scale
uniformly by 3 / maxDim (so a node at identity scale whose raw box has
maximum extent 6 ends at scale 1/2 on every axis, as the witness shows) and
translates the node so the recomputed world bounding-box center is exactly
the world origin. -/
theorem fitObjectToScene_scale_center (o : Object3D)
    (hne : nodePoints o ≠ [])
    (hpos : 0 < maxDimOf (nodePoints o)) :
    (fitObjectToScene o).scale = smulQ (3 / maxDimOf (nodePoints o)) o.scale
    ∧ boxCenter (nodePoints (fitObjectToScene o)) = some v0 := by
  have hempty : (nodePoints o).isEmpty = false := by
    cases hnp : nodePoints o with
    | nil => exact absurd hnp hne
    | cons a t => rfl
  have hfit : fitObjectToScene o
      = recenter (fitScaled o (maxDimOf (nodePoints o))) := by
    simp [fitObjectToScene, hempty]
  constructor
  · rw [hfit, recenter_scale]
    unfold fitScaled
    rw [if_pos hpos, scale_setScale]
  · rw [hfit]
    exact boxCenter_recenter _ (nodePoints_fitScaled_ne_nil o _ hne)

/-- Concrete witness node for C1: a single mesh with vertices (0,0,0) and
(6,4,2) at the identity transform, so the raw bounding box has maximum
extent 6 and the fitted scale is 1/2 = 0.5 on every axis. -/
def fitWitnessObj : Object3D := .mk v0 v1 [⟨0, 0, 0⟩, ⟨6, 4, 2⟩] []

/-- Evaluation helper for the C1 witness: the witness point list is not
empty. -/
theorem fitWitness_ne_nil : nodePoints fitWitnessObj ≠ [] := by
  simp [nodePoints, innerPts, innerPtsList, fitWitnessObj]

/-- Evaluation helper for the C1 witness: the witness box has maximum
extent 6. -/
theorem fitWitness_maxDim : maxDimOf (nodePoints fitWitnessObj) = 6 := by
  norm_num [maxDimOf, nodePoints, innerPts, innerPtsList, fitWitnessObj,
    lowerCorner, upperCorner, vadd, vmul, vmin, vmax, qmin, qmax, vsub,
    v0, v1, Object3D.position, Object3D.scale]

/-- Evaluation helper for the C1 witness: the maximum extent is positive. -/
theorem fitWitness_maxDim_pos : 0 < maxDimOf (nodePoints fitWitnessObj) := by
  rw [fitWitness_maxDim]; norm_num

/-- Evaluation helper for the C1 witness: the scale 3 / 6 of the witness
node is one half on every axis. -/
theorem fitWitness_scale_value :
    smulQ (3 / maxDimOf (nodePoints fitWitnessObj)) fitWitnessObj.scale
      = ⟨1/2, 1/2, 1/2⟩ := by
  rw [fitWitness_maxDim]
  norm_num [smulQ, fitWitnessObj, Object3D.scale, v1]

theorem fitObjectToScene_scale_center_witness :
    (nodePoints fitWitnessObj ≠ []
      ∧ 0 < maxDimOf (nodePoints fitWitnessObj)
      ∧ maxDimOf (nodePoints fitWitnessObj) = 6
      ∧ smulQ (3 / maxDimOf (nodePoints fitWitnessObj)) fitWitnessObj.scale
          = ⟨1/2, 1/2, 1/2⟩)
    ∧ ((fitObjectToScene fitWitnessObj).scale
          = smulQ (3 / maxDimOf (nodePoints fitWitnessObj)) fitWitnessObj.scale
       ∧ boxCenter (nodePoints (fitObjectToScene fitWitnessObj)) = some v0) :=
  ⟨⟨fitWitness_ne_nil, fitWitness_maxDim_pos, fitWitness_maxDim,
      fitWitness_scale_value⟩,
    fitObjectToScene_scale_center fitWitnessObj fitWitness_ne_nil
      fitWitness_maxDim_pos⟩

/-- C4: when the world bounding box is empty (for example an empty group
with no visible geometry), fitObjectToScene returns the node unchanged; the
embedding is a total function, so in particular no exception is raised and
the guard makes the division by maxDim unreachable.  The scale, identity or
not, is untouched. -/
theorem fitObjectToScene_empty_box_noop (o : Object3D)
    (h : nodePoints o = []) :
    fitObjectToScene o = o ∧ (fitObjectToScene o).scale = o.scale := by
  have hemp : (nodePoints o).isEmpty = true := by rw [h]; rfl
  constructor <;> simp [fitObjectToScene, hemp]

/-- Concrete witness node for C4: an empty group at identity scale. -/
def emptyGroupObj : Object3D := .mk v0 v1 [] []

theorem fitObjectToScene_empty_box_noop_witness :
    nodePoints emptyGroupObj = []
    ∧ (fitObjectToScene emptyGroupObj = emptyGroupObj
       ∧ (fitObjectToScene emptyGroupObj).scale = emptyGroupObj.scale)
    ∧ emptyGroupObj.scale = v1 :=
  ⟨by decide, fitObjectToScene_empty_box_noop emptyGroupObj (by decide),
    by decide⟩

theorem fit_fix_of_centered (o : Object3D)
    (hne : nodePoints o ≠ [])
    (hc : boxCenter (nodePoints o) = some v0)
    (hm : maxDimOf (nodePoints o) = 3) :
    fitObjectToScene o = o := by
  have hempty : (nodePoints o).isEmpty = false := by
    cases hnp : nodePoints o with
    | nil => exact absurd hnp hne
    | cons a t => rfl
  have h1 : fitScaled o (maxDimOf (nodePoints o)) = o := by
    rw [hm]
    unfold fitScaled
    rw [if_pos (by norm_num)]
    have h33 : (3 : ℚ) / 3 = 1 := by norm_num
    rw [h33, smulQ_one, setScale_self]
  have h2 : recenter o = o := by
    unfold recenter
    rw [hc]
    show o.setPosition (vsub o.position v0) = o
    rw [vsub_v0, setPosition_self]
  simp [fitObjectToScene, hempty, h1, h2]

/-- C7: fitObjectToScene is idempotent on the node transform for an
already-centered node of the target size: applying it twice yields exactly
the transform that one application yields (exact rational equality, hence
within any floating-point tolerance). -/
theorem fitObjectToScene_idempotent (o : Object3D)
    (hne : nodePoints o ≠ [])
    (hc : boxCenter (nodePoints o) = some v0)
    (hm : maxDimOf (nodePoints o) = 3) :
    fitObjectToScene (fitObjectToScene o) = fitObjectToScene o := by
  have hfix := fit_fix_of_centered o hne hc hm
  rw [hfix, hfix]

/-- Concrete witness node for C7: a mesh spanning (-3/2,..) to (3/2,..), so
it is centered at the origin with maximum extent exactly 3. -/
def centeredObj : Object3D :=
  .mk v0 v1 [⟨-(3/2), -(3/2), -(3/2)⟩, ⟨3/2, 3/2, 3/2⟩] []

/-- Evaluation helper for the C7 witness: the witness node has a nonempty
point list. -/
theorem centeredObj_ne_nil : nodePoints centeredObj ≠ [] := by
  simp [nodePoints, innerPts, innerPtsList, centeredObj]

/-- Evaluation helper for the C7 witness: the witness box is centered at
the origin. -/
theorem centeredObj_center : boxCenter (nodePoints centeredObj) = some v0 := by
  norm_num [boxCenter, nodePoints, innerPts, innerPtsList, centeredObj,
    lowerCorner, upperCorner, vadd, vmul, vmin, vmax, qmin, qmax, smulQ,
    v0, v1, Object3D.position, Object3D.scale]

/-- Evaluation helper for the C7 witness: the witness box has maximum
extent exactly 3. -/
theorem centeredObj_maxDim : maxDimOf (nodePoints centeredObj) = 3 := by
  norm_num [maxDimOf, nodePoints, innerPts, innerPtsList, centeredObj,
    lowerCorner, upperCorner, vadd, vmul, vmin, vmax, qmin, qmax, vsub,
    v0, v1, Object3D.position, Object3D.scale]

theorem fitObjectToScene_idempotent_witness :
    (nodePoints centeredObj ≠ []
      ∧ boxCenter (nodePoints centeredObj) = some v0
      ∧ maxDimOf (nodePoints centeredObj) = 3)
    ∧ fitObjectToScene (fitObjectToScene centeredObj)
        = fitObjectToScene centeredObj :=
  ⟨⟨centeredObj_ne_nil, centeredObj_center, centeredObj_maxDim⟩,
    fitObjectToScene_idempotent centeredObj centeredObj_ne_nil
      centeredObj_center centeredObj_maxDim⟩

/-- Parameters of a MeshStandardMaterial as created by loadShape. -/
structure MaterialParams where
  color : Nat
  metalness : ℚ
  roughness : ℚ
  flatShading : Bool
deriving DecidableEq, Repr

/-- The material literal shared by the five basic primitives
(renderer.js lines 164-169). -/
def stdMaterial : MaterialParams :=
  { color := 0x4a90e2, metalness := 3/10, roughness := 2/5,
    flatShading := false }

/-- The material literal shared by all five teapot parts (lines 125-129);
flatShading is not given in the source and keeps the three.js default
false. -/
def bodyMaterial : MaterialParams :=
  { color := 0x4a90e2, metalness := 3/10, roughness := 2/5,
    flatShading := false }

/-- Parametric geometries of the shape factory.  Angle parameters that the
source passes as multiples of Math.PI (phiStart, phiLength, thetaStart,
thetaLength, arc) are recorded by their rational coefficient of pi. -/
inductive Geometry where
  | box (w h d : ℚ)
  | sphere (radius : ℚ) (widthSegments heightSegments : Nat)
      (phiStartPi phiLengthPi thetaStartPi thetaLengthPi : ℚ)
  | torus (radius tube : ℚ) (radialSegments tubularSegments : Nat)
      (arcPi : ℚ)
  | cone (radius height : ℚ) (radialSegments : Nat)
  | cylinder (radiusTop radiusBottom height : ℚ) (radialSegments : Nat)
  | bufferGeometry
deriving DecidableEq, Repr

/-- A renderable node as produced by loadShape: a mesh referencing a
material by index into the accompanying material store, or a group of
children.  Rotations are recorded in units of pi. -/
inductive SceneNode where
  | mesh (geom : Geometry) (matId : Nat) (castShadow receiveShadow : Bool)
      (position rotationPi : Vec3)
  | group (children : List SceneNode) (castShadow receiveShadow : Bool)

/-- The castShadow flag of the node itself. -/
def SceneNode.castShadowFlag : SceneNode → Bool
  | .mesh _ _ c _ _ _ => c
  | .group _ c _ => c

/-- The receiveShadow flag of the node itself. -/
def SceneNode.receiveShadowFlag : SceneNode → Bool
  | .mesh _ _ _ r _ _ => r
  | .group _ _ r => r

/-- The material index of a mesh node (0 for a group). -/
def SceneNode.topMatId : SceneNode → Nat
  | .mesh _ m _ _ _ _ => m
  | .group _ _ _ => 0

/-- The number of direct children. -/
def SceneNode.childCount : SceneNode → Nat
  | .mesh _ _ _ _ _ _ => 0
  | .group cs _ _ => cs.length

/-- The material indices of the direct children of a group. -/
def SceneNode.childMatIds : SceneNode → List Nat
  | .mesh _ m _ _ _ _ => [m]
  | .group cs _ _ => cs.map SceneNode.topMatId

/-- The teapot composite (lines 119-161): body, spout, handle, lid and
knob — five meshes all referencing the single bodyMaterial instance
(index 0).  The source never sets castShadow or receiveShadow in this
branch, so every flag keeps the three.js default false. -/
def teapotNode : SceneNode :=
  .group
    [ .mesh (.sphere 1 32 32 0 2 0 (7/10)) 0 false false v0 v0
    , .mesh (.cone (3/20) (4/5) 16) 0 false false ⟨1, 0, 0⟩ ⟨0, 0, 1/2⟩
    , .mesh (.torus (1/2) (1/10) 16 32 1) 0 false false
        ⟨-(4/5), 0, 0⟩ ⟨0, 1/2, 0⟩
    , .mesh (.cylinder (1/2) (3/5) (1/5) 32) 0 false false ⟨0, 4/5, 0⟩ v0
    , .mesh (.sphere (1/5) 16 16 0 2 0 1) 0 false false ⟨0, 1, 0⟩ v0 ]
    false false

/-- The switch of loadShape over the five basic shape names (lines
103-118); an unknown name leaves the geometry variable undefined, modelled
as none. -/
def shapeGeometry? (kind : String) : Option Geometry :=
  match kind with
  | "cube" => some (.box 2 2 2)
  | "sphere" => some (.sphere (3/2) 32 32 0 2 0 1)
  | "torus" => some (.torus (3/2) (1/2) 16 100 2)
  | "cone" => some (.cone (3/2) (5/2) 32)
  | "cylinder" => some (.cylinder 1 1 (5/2) 32)
  | _ => none

/-- The node construction of loadShape: the teapot case returns the
five-part composite; every other path falls through to the common tail
(lines 164-175) building one shadow-casting, shadow-receiving mesh with
the standard material.  Passing an undefined geometry to the three.js Mesh
constructor selects its default empty BufferGeometry, modelled by getD
bufferGeometry. -/
def buildShapeNode (kind : String) : SceneNode × List MaterialParams :=
  if kind = "teapot" then (teapotNode, [bodyMaterial])
  else
    (.mesh ((shapeGeometry? kind).getD .bufferGeometry) 0 true true v0 v0,
      [stdMaterial])

/-- Scene-graph bookkeeping of the viewer: identifiers of the direct
children of the scene (model roots; the lights are unaffected by the
modelled operations and omitted), the identifier of the current object,
and a counter from which loadShape draws the identifier of the freshly
built node (three.js constructors always return distinct fresh
instances). -/
structure SceneState where
  sceneChildren : List Nat
  currentObject : Option Nat
  nextId : Nat
deriving DecidableEq, Repr

/-- Lines 94-97 of loadShape and the matching prologue of the loader
success paths: remove the current object from the scene when there is one.
Object3D.remove deletes the first matching child, as List.erase does. -/
def removeCurrent (s : SceneState) : SceneState :=
  match s.currentObject with
  | some c => { s with sceneChildren := s.sceneChildren.erase c }
  | none => s

/-- loadShape (lines 93-176): unconditionally remove the current object,
build the node for the requested kind, register it as current and add it
to the scene.  Returns the new bookkeeping state with the built node and
its material store.  updateHierarchy and frameCameraOnObject only touch
the control panel and the camera and are outside the claims. -/
def loadShape (kind : String) (s : SceneState) :
    SceneState × SceneNode × List MaterialParams :=
  let s1 := removeCurrent s
  ({ sceneChildren := s1.sceneChildren ++ [s.nextId],
     currentObject := some s.nextId,
     nextId := s.nextId + 1 }, buildShapeNode kind)

/-- A user-visible effect of a loader: a console log or an alert dialog. -/
inductive LoadEffect where
  | log (msg : String)
  | alert (msg : String)
deriving DecidableEq, Repr

/-- Alert text of the FBX loader (line 445; the ASCII apostrophe of the
source text is elided). -/
def fbxAlertMsg : String :=
  "Error loading FBX model. Please ensure it is a valid FBX file."

/-- Alert text of the OBJ loader (line 362; apostrophe elided). -/
def objAlertMsg : String :=
  "Error loading OBJ model. Please ensure it is a valid OBJ file."

/-- Alert text of the GLTF error callback (line 484; apostrophe elided). -/
def gltfAlertMsg : String :=
  "Error loading model. Please ensure it is a valid GLB/GLTF file."

/-- loadFBXFile (lines 404-449): the parse runs first inside the try
block, so its outcome is the input here; on success the current object is
removed, the parsed root becomes current and is added to the scene; on a
thrown parse error the catch block only logs and alerts, leaving the
viewer state untouched. -/
def loadFBXStep (parseResult : Except String Nat) (s : SceneState) :
    SceneState × List LoadEffect :=
  match parseResult with
  | .error e =>
      (s, [.log ("Error loading FBX model: " ++ e), .alert fbxAlertMsg])
  | .ok obj =>
      let s1 := removeCurrent s
      ({ s1 with sceneChildren := s1.sceneChildren ++ [obj],
                 currentObject := some obj }, [])

/-- loadOBJFile (lines 322-402): same shape as the FBX path; the OBJ parse
is the first statement of the try block of loadObj. -/
def loadOBJStep (parseResult : Except String Nat) (s : SceneState) :
    SceneState × List LoadEffect :=
  match parseResult with
  | .error e =>
      (s, [.log ("Error loading OBJ model: " ++ e), .alert objAlertMsg])
  | .ok obj =>
      let s1 := removeCurrent s
      ({ s1 with sceneChildren := s1.sceneChildren ++ [obj],
                 currentObject := some obj }, [])

/-- loadGLTFFile (lines 451-488): the asynchronous parse invokes either
the success continuation, which removes and replaces the current object,
or the error continuation, which only logs and alerts. -/
def loadGLTFStep (parseResult : Except String Nat) (s : SceneState) :
    SceneState × List LoadEffect :=
  match parseResult with
  | .error e =>
      (s, [.log ("Error loading model: " ++ e), .alert gltfAlertMsg])
  | .ok obj =>
      let s1 := removeCurrent s
      ({ s1 with sceneChildren := s1.sceneChildren ++ [obj],
                 currentObject := some obj }, [])

/-- Boolean test that the first character list starts the second. -/
def chStarts : List Char → List Char → Bool
  | [], _ => true
  | _ :: _, [] => false
  | a :: as, b :: bs => a == b && chStarts as bs

/-- Boolean contiguous-substring test on character lists. -/
def chSub (p : List Char) : List Char → Bool
  | [] => p.isEmpty
  | l@(_ :: t) => chStarts p l || chSub p t

/-- JavaScript String.prototype.includes: s contains sub as a contiguous
substring. -/
def strContains (s sub : String) : Bool := chSub sub.data s.data

/-- C3: for each of the three format loaders, a failed decode leaves the
viewer state exactly as it was — in particular the previously current
object is still current and still a scene child, because removal happens
only after a successful parse — and the only effects are the console log
and an alert whose text names the expected format. -/
theorem loader_error_preserves_state (e : String) (s : SceneState) (c : Nat)
    (hcur : s.currentObject = some c) (hmem : c ∈ s.sceneChildren) :
    ((loadFBXStep (.error e) s).1 = s
      ∧ (loadFBXStep (.error e) s).2
          = [.log ("Error loading FBX model: " ++ e), .alert fbxAlertMsg]
      ∧ strContains fbxAlertMsg "FBX" = true
      ∧ (loadFBXStep (.error e) s).1.currentObject = some c
      ∧ c ∈ (loadFBXStep (.error e) s).1.sceneChildren)
    ∧ ((loadOBJStep (.error e) s).1 = s
      ∧ (loadOBJStep (.error e) s).2
          = [.log ("Error loading OBJ model: " ++ e), .alert objAlertMsg]
      ∧ strContains objAlertMsg "OBJ" = true
      ∧ (loadOBJStep (.error e) s).1.currentObject = some c
      ∧ c ∈ (loadOBJStep (.error e) s).1.sceneChildren)
    ∧ ((loadGLTFStep (.error e) s).1 = s
      ∧ (loadGLTFStep (.error e) s).2
          = [.log ("Error loading model: " ++ e), .alert gltfAlertMsg]
      ∧ strContains gltfAlertMsg "GLB/GLTF" = true
      ∧ (loadGLTFStep (.error e) s).1.currentObject = some c
      ∧ c ∈ (loadGLTFStep (.error e) s).1.sceneChildren) := by
  exact ⟨⟨rfl, rfl, by decide, hcur, hmem⟩,
    ⟨rfl, rfl, by decide, hcur, hmem⟩,
    ⟨rfl, rfl, by decide, hcur, hmem⟩⟩

/-- Concrete scene (one loaded root with identifier 0) used by the
loader-facing witnesses. -/
def demoScene : SceneState := ⟨[0], some 0, 1⟩

theorem loader_error_preserves_state_witness :
    (demoScene.currentObject = some 0 ∧ (0 : Nat) ∈ demoScene.sceneChildren)
    ∧ (loadFBXStep (.error "bad") demoScene).1 = demoScene
    ∧ (loadOBJStep (.error "bad") demoScene).1 = demoScene
    ∧ (loadGLTFStep (.error "bad") demoScene).1 = demoScene :=
  ⟨⟨rfl, by decide⟩,
    (loader_error_preserves_state "bad" demoScene 0 rfl (by decide)).1.1,
    (loader_error_preserves_state "bad" demoScene 0 rfl (by decide)).2.1.1,
    (loader_error_preserves_state "bad" demoScene 0 rfl (by decide)).2.2.1⟩

/-- C5 counterexample: the claim asserts the current object of every shape
kind is shadow casting, but the teapot branch of loadShape never sets the
shadow flags, so the teapot composite keeps castShadow = false. -/
theorem teapot_castShadow_counterexample :
    ¬ ((buildShapeNode "teapot").1.castShadowFlag = true) := by
  decide

/-- C5 amended: the five basic primitives are shadow-casting,
shadow-receiving meshes over the single standard material with base color
0x4a90e2; the teapot is a composite of exactly 5 parts all referencing one
shared material instance with the same base color, but its shadow flags
keep the three.js default false because the teapot branch never sets
them. -/
theorem buildPrimitive_amended :
    buildShapeNode "cube"
        = (.mesh (.box 2 2 2) 0 true true v0 v0, [stdMaterial])
    ∧ buildShapeNode "sphere"
        = (.mesh (.sphere (3/2) 32 32 0 2 0 1) 0 true true v0 v0,
            [stdMaterial])
    ∧ buildShapeNode "torus"
        = (.mesh (.torus (3/2) (1/2) 16 100 2) 0 true true v0 v0,
            [stdMaterial])
    ∧ buildShapeNode "cone"
        = (.mesh (.cone (3/2) (5/2) 32) 0 true true v0 v0, [stdMaterial])
    ∧ buildShapeNode "cylinder"
        = (.mesh (.cylinder 1 1 (5/2) 32) 0 true true v0 v0, [stdMaterial])
    ∧ stdMaterial.color = 0x4a90e2
    ∧ buildShapeNode "teapot" = (teapotNode, [bodyMaterial])
    ∧ teapotNode.childCount = 5
    ∧ teapotNode.childMatIds = [0, 0, 0, 0, 0]
    ∧ bodyMaterial.color = 0x4a90e2
    ∧ teapotNode.castShadowFlag = false
    ∧ teapotNode.receiveShadowFlag = false :=
  ⟨rfl, rfl, rfl, rfl, rfl, rfl, rfl, rfl, rfl, rfl, rfl, rfl⟩

theorem replaceCore (s : SceneState) (c n : Nat)
    (hcur : s.currentObject = some c) (hmem : c ∈ s.sceneChildren)
    (hnodup : s.sceneChildren.Nodup) (hne : c ≠ n) :
    n ∈ (removeCurrent s).sceneChildren ++ [n]
    ∧ c ∉ (removeCurrent s).sceneChildren ++ [n] := by
  constructor
  · exact List.mem_append_right _ (List.mem_singleton.mpr rfl)
  · intro hc
    rcases List.mem_append.mp hc with h | h
    · have hrem : (removeCurrent s).sceneChildren = s.sceneChildren.erase c := by
        simp [removeCurrent, hcur]
      rw [hrem] at h
      exact hnodup.not_mem_erase h
    · exact hne (List.mem_singleton.mp h)

/-- C6: after every successful model replacement — loadShape for a
primitive kind, or any of the three loader success paths — the freshly
built root is the current object and a direct child of the scene, and the
previously current root is no longer in the scene. -/
theorem replace_invariant (k : String) (s : SceneState) (c obj : Nat)
    (hcur : s.currentObject = some c) (hmem : c ∈ s.sceneChildren)
    (hnodup : s.sceneChildren.Nodup) (hlt : c < s.nextId) (hobj : obj ≠ c) :
    ((loadShape k s).1.currentObject = some s.nextId
      ∧ s.nextId ∈ (loadShape k s).1.sceneChildren
      ∧ c ∉ (loadShape k s).1.sceneChildren)
    ∧ ((loadFBXStep (.ok obj) s).1.currentObject = some obj
      ∧ obj ∈ (loadFBXStep (.ok obj) s).1.sceneChildren
      ∧ c ∉ (loadFBXStep (.ok obj) s).1.sceneChildren)
    ∧ ((loadOBJStep (.ok obj) s).1.currentObject = some obj
      ∧ obj ∈ (loadOBJStep (.ok obj) s).1.sceneChildren
      ∧ c ∉ (loadOBJStep (.ok obj) s).1.sceneChildren)
    ∧ ((loadGLTFStep (.ok obj) s).1.currentObject = some obj
      ∧ obj ∈ (loadGLTFStep (.ok obj) s).1.sceneChildren
      ∧ c ∉ (loadGLTFStep (.ok obj) s).1.sceneChildren) := by
  have h1 := replaceCore s c s.nextId hcur hmem hnodup (Nat.ne_of_lt hlt)
  have h2 := replaceCore s c obj hcur hmem hnodup (Ne.symm hobj)
  exact ⟨⟨rfl, h1.1, h1.2⟩, ⟨rfl, h2.1, h2.2⟩, ⟨rfl, h2.1, h2.2⟩,
    ⟨rfl, h2.1, h2.2⟩⟩

theorem replace_invariant_witness :
    (demoScene.currentObject = some 0 ∧ (0 : Nat) ∈ demoScene.sceneChildren
      ∧ demoScene.sceneChildren.Nodup ∧ 0 < demoScene.nextId
      ∧ (7 : Nat) ≠ 0)
    ∧ ((loadShape "sphere" demoScene).1.currentObject = some demoScene.nextId
      ∧ demoScene.nextId ∈ (loadShape "sphere" demoScene).1.sceneChildren
      ∧ 0 ∉ (loadShape "sphere" demoScene).1.sceneChildren)
    ∧ ((loadFBXStep (.ok 7) demoScene).1.currentObject = some 7
      ∧ 7 ∈ (loadFBXStep (.ok 7) demoScene).1.sceneChildren
      ∧ 0 ∉ (loadFBXStep (.ok 7) demoScene).1.sceneChildren) :=
  ⟨⟨rfl, by decide, by decide, by decide, by decide⟩,
    (replace_invariant "sphere" demoScene 0 7 rfl (by decide) (by decide)
      (by decide) (by decide)).1,
    (replace_invariant "sphere" demoScene 0 7 rfl (by decide) (by decide)
      (by decide) (by decide)).2.1⟩

theorem shapeGeometry_none (k : String)
    (hk : k ∉ ["cube", "sphere", "torus", "cone", "cylinder", "teapot"]) :
    shapeGeometry? k = none := by
  simp only [List.mem_cons, List.not_mem_nil, or_false, not_or] at hk
  obtain ⟨h1, h2, h3, h4, h5, h6⟩ := hk
  unfold shapeGeometry?
  split <;> simp_all

/-- C9 counterexample: the claim asserts an unknown kind is a no-op on the
current object and the scene, but loadShape removes the current object
before the switch and installs a fresh default mesh, so the state
changes. -/
theorem unknown_kind_not_noop_counterexample :
    ¬ ((loadShape "pyramid" ⟨[0], some 0, 1⟩).1 = ⟨[0], some 0, 1⟩) := by
  decide

/-- C9 amended: calling loadShape with a kind outside the six known names
does not raise (the embedding is total), but it is not a no-op: the switch
leaves the geometry undefined, the common tail builds a shadow-casting
mesh with the default empty BufferGeometry and the standard material,
removes the current object, and installs the new mesh as current. -/
theorem unknown_kind_amended (k : String) (s : SceneState)
    (hk : k ∉ ["cube", "sphere", "torus", "cone", "cylinder", "teapot"]) :
    buildShapeNode k
        = (.mesh .bufferGeometry 0 true true v0 v0, [stdMaterial])
    ∧ (loadShape k s).1.currentObject = some s.nextId
    ∧ (loadShape k s).1.sceneChildren
        = (removeCurrent s).sceneChildren ++ [s.nextId] := by
  have hteapot : k ≠ "teapot" := by
    intro h
    exact hk (by simp [h])
  refine ⟨?_, rfl, rfl⟩
  unfold buildShapeNode
  rw [if_neg hteapot, shapeGeometry_none k hk]
  rfl

theorem unknown_kind_amended_witness :
    ("pyramid" ∉ ["cube", "sphere", "torus", "cone", "cylinder", "teapot"])
    ∧ (buildShapeNode "pyramid"
          = (.mesh .bufferGeometry 0 true true v0 v0, [stdMaterial])
       ∧ (loadShape "pyramid" demoScene).1.currentObject
          = some demoScene.nextId
       ∧ (loadShape "pyramid" demoScene).1.sceneChildren
          = (removeCurrent demoScene).sceneChildren ++ [demoScene.nextId]) :=
  ⟨by decide, unknown_kind_amended "pyramid" demoScene (by decide)⟩

/-- String.prototype.toLowerCase restricted to ASCII, which is what
Char.toLower implements. -/
def lowerStr (s : String) : String := ⟨s.data.map Char.toLower⟩

/-- The fixed slot table of applyUploadedTextures (lines 228-239): material
property name and its filename patterns, in source order. -/
def textureMapTypes : List (String × List String) :=
  [ ("map", ["diffuse", "albedo", "basecolor", "base_color", "color",
      "diff"])
  , ("normalMap", ["normal", "nrm", "norm", "nmap"])
  , ("bumpMap", ["bump", "height", "disp_bump"])
  , ("emissiveMap", ["emissive", "emission", "emit", "glow", "self_illum"])
  , ("roughnessMap", ["roughness", "rough", "rgh"])
  , ("metalnessMap", ["metalness", "metallic", "metal", "met"])
  , ("aoMap", ["ao", "ambient_occlusion", "ambientocclusion", "occlusion"])
  , ("specularMap", ["specular", "spec", "refl"])
  , ("displacementMap", ["displacement", "displace", "heightmap"])
  , ("alphaMap", ["alpha", "opacity", "transparent", "transparency"])
  ]

/-- lower.includes(p) over the patterns of one slot (line 248). -/
def fileMatches (pats : List String) (f : String) : Bool :=
  pats.any (fun p => strContains (lowerStr f) p)

/-- The pattern scan of applyUploadedTextures (lines 245-254): for each
slot in table order, the first registry file (in insertion order) whose
lowercased name contains one of the slot patterns is assigned to the slot
and recorded in usedFiles.  The scan itself never consults usedFiles.
Registry entries are identified by their key, the lowercased filename. -/
def scanSlots (registry : List String) :
    List (String × List String) → List (String × String) × List String
  | [] => ([], [])
  | (prop, pats) :: rest =>
    match registry.find? (fileMatches pats) with
    | some f =>
        let r := scanSlots registry rest
        ((prop, f) :: r.1, f :: r.2)
    | none => scanSlots registry rest

/-- The full assignment construction of applyUploadedTextures (lines
241-272): the pattern scan, then the diffuse fallback over registry files
not in usedFiles, then the single-file rule.  (The fallback also records
its file in usedFiles in the source; nothing afterwards reads the set, so
the model drops that write.) -/
def buildAssignments (registry : List String) : List (String × String) :=
  let scan := scanSlots registry textureMapTypes
  let withFallback : List (String × String) :=
    if (scan.1.lookup "map").isNone then
      match registry.find? (fun g => !(scan.2.contains g)) with
      | some f => scan.1 ++ [("map", f)]
      | none => scan.1
    else scan.1
  if registry.length == 1 && withFallback.isEmpty then
    match registry.head? with
    | some f => [("map", f)]
    | none => withFallback
  else withFallback

/-- C2 counterexample: the claim asserts a file used for one slot is never
reused for another, but the name heightmap.png matches both the bump
patterns (height) and the displacement patterns (heightmap), and the scan
never consults usedFiles, so the single file is assigned to both slots. -/
theorem patternFill_reuse_counterexample :
    ¬ (((buildAssignments ["heightmap.png"]).map Prod.snd).Nodup) := by
  decide

theorem scanSlots_fst (registry : List String)
    (slots : List (String × List String)) :
    (scanSlots registry slots).1
      = slots.filterMap
          (fun pr => (registry.find? (fileMatches pr.2)).map
            (fun g => (pr.1, g))) := by
  induction slots with
  | nil => rfl
  | cons hd tl ih =>
    obtain ⟨prop, pats⟩ := hd
    cases hfind : registry.find? (fileMatches pats) with
    | none => simp [scanSlots, hfind, ih]
    | some f => simp [scanSlots, hfind, ih]

theorem lookup_append_of_none {β : Type} (k : String)
    (l1 l2 : List (String × β)) (h : l1.lookup k = none) :
    (l1 ++ l2).lookup k = l2.lookup k := by
  induction l1 with
  | nil => rfl
  | cons p t ih =>
    obtain ⟨a, b⟩ := p
    cases hk : (k == a) with
    | true => simp [List.lookup, hk] at h
    | false =>
      simp only [List.lookup, hk] at h
      simp only [List.cons_append, List.lookup, hk]
      exact ih h

/-- C2 amended: in the pattern-based fill phase the slots are scanned in
fixed table order and each slot independently receives the first registry
file whose lowercased name contains one of the slot patterns — the
usedFiles set is recorded but never consulted by the scan, so one file can
serve several slots.  Only the diffuse fallback consults the set: when no
file matched the diffuse slot by pattern, the first registry file not used
by the pattern scan (when one exists) becomes the diffuse assignment. -/
theorem patternFill_amended (registry : List String) (f : String)
    (hmap : ((scanSlots registry textureMapTypes).1).lookup "map" = none)
    (hfb : registry.find?
        (fun g => !((scanSlots registry textureMapTypes).2.contains g))
        = some f) :
    (scanSlots registry textureMapTypes).1
        = textureMapTypes.filterMap
            (fun pr => (registry.find? (fileMatches pr.2)).map
              (fun g => (pr.1, g)))
    ∧ (buildAssignments registry).lookup "map" = some f := by
  refine ⟨scanSlots_fst registry textureMapTypes, ?_⟩
  have hne : ((scanSlots registry textureMapTypes).1
      ++ [("map", f)]).isEmpty = false := by
    cases (scanSlots registry textureMapTypes).1 <;> rfl
  simp only [buildAssignments, hmap, hfb, Option.isNone_none, if_true,
    hne, Bool.and_false, Bool.false_eq_true, if_false]
  rw [lookup_append_of_none _ _ _ hmap]
  rfl

theorem patternFill_amended_witness :
    (((scanSlots ["foo.png"] textureMapTypes).1).lookup "map" = none
      ∧ ["foo.png"].find?
          (fun g => !((scanSlots ["foo.png"] textureMapTypes).2.contains g))
          = some "foo.png")
    ∧ ((scanSlots ["foo.png"] textureMapTypes).1
          = textureMapTypes.filterMap
              (fun pr => (["foo.png"].find? (fileMatches pr.2)).map
                (fun g => (pr.1, g)))
       ∧ (buildAssignments ["foo.png"]).lookup "map" = some "foo.png") :=
  ⟨⟨by decide, by decide⟩,
    patternFill_amended ["foo.png"] "foo.png" (by decide) (by decide)⟩

/-- The uploaded-texture registry and whether a model is currently loaded.
Registry entries map the lowercased filename key to the original filename,
standing for its blob resource. -/
structure TextureState where
  textureFiles : List (String × String)
  hasCurrentObject : Bool
deriving DecidableEq, Repr

/-- An effect of handleTextureUpload: triggering texture re-resolution, or
logging. -/
inductive TexEffect where
  | applyTextures
  | log (msg : String)
deriving DecidableEq, Repr

/-- JavaScript Map.set: overwrite in place when the key exists, otherwise
append, preserving insertion order. -/
def mapSet (m : List (String × String)) (k v : String) :
    List (String × String) :=
  if m.any (fun p => p.1 == k) then
    m.map (fun p => if p.1 == k then (k, v) else p)
  else m ++ [(k, v)]

/-- handleTextureUpload (lines 202-220): return immediately when the file
list is absent or empty; otherwise clear the registry, re-fill it keyed by
lowercased filename, trigger re-resolution when a model is loaded, and log
the count. -/
def handleTextureUpload (files : Option (List String)) (s : TextureState) :
    TextureState × List TexEffect :=
  match files with
  | none => (s, [])
  | some fs =>
    if fs.length = 0 then (s, [])
    else
      let registry := fs.foldl (fun m f => mapSet m (lowerStr f) f) []
      let s1 : TextureState := { s with textureFiles := registry }
      (s1,
        (if s1.hasCurrentObject then [TexEffect.applyTextures] else [])
          ++ [TexEffect.log ("Loaded " ++ toString fs.length
              ++ " texture file(s). Upload an FBX model or re-upload to apply.")])

/-- C10: an absent or empty file list makes handleTextureUpload a complete
no-op: the registry keeps every previous entry, because the wholesale
clear-and-replace is guarded behind the emptiness check, and neither
texture re-resolution nor the log is triggered. -/
theorem handleTextureUpload_empty_noop (files : Option (List String))
    (s : TextureState) (h : files = none ∨ files = some []) :
    handleTextureUpload files s = (s, []) := by
  rcases h with h | h <;> subst h <;> rfl

theorem handleTextureUpload_empty_noop_witness :
    (some ([] : List String) = none ∨ some ([] : List String) = some [])
    ∧ handleTextureUpload (some [])
        ⟨[("a.png", "a.png")], true⟩ = (⟨[("a.png", "a.png")], true⟩, []) :=
  ⟨Or.inr rfl,
    handleTextureUpload_empty_noop (some []) ⟨[("a.png", "a.png")], true⟩
      (Or.inr rfl)⟩

/-- The rotation-relevant state of the viewer: the isRotating flag, the
rotation accumulators of the current object, and whether a current object
exists. -/
structure RotState where
  isRotating : Bool
  rotX : ℚ
  rotY : ℚ
  hasCurrentObject : Bool
deriving DecidableEq, Repr

/-- Line 17 of the constructor: this.isRotating = false. -/
def initialIsRotating : Bool := false

/-- toggleRotation (lines 637-639): negate the flag. -/
def toggleRotation (s : RotState) : RotState :=
  { s with isRotating := !s.isRotating }

/-- The rotation part of one animate frame (lines 740-744): when a current
object exists and rotation is enabled, advance rotation.x by 0.005 = 1/200
and rotation.y by 0.01 = 1/100; otherwise leave the rotation untouched. -/
def animateStep (s : RotState) : RotState :=
  if s.hasCurrentObject && s.isRotating then
    { s with rotX := s.rotX + 1/200, rotY := s.rotY + 1/100 }
  else s

/-- C8 evaluation at the failing input: the constructor initialises the
rotation flag to false, so rotation starts disabled and the first
toggleRotation call enables rather than disables it — against the claim,
the specification and the test suite, which all state rotation starts
enabled.  The per-frame increments themselves match the claim: an enabled
frame-step adds exactly 1/200 to rotation.x and 1/100 to rotation.y, and a
disabled frame-step changes nothing. -/
theorem isRotating_init_evaluation :
    initialIsRotating = false
    ∧ (toggleRotation ⟨initialIsRotating, 0, 0, true⟩).isRotating = true
    ∧ (∀ a b : ℚ, animateStep ⟨true, a, b, true⟩
        = ⟨true, a + 1/200, b + 1/100, true⟩)
    ∧ (∀ a b : ℚ, animateStep ⟨false, a, b, true⟩ = ⟨false, a, b, true⟩) :=
  ⟨rfl, rfl, fun a b => rfl, fun a b => rfl⟩
